import Mathlib

/-!
Shallow embedding of the BoM-derivation core of BOMGenerator/app.py:
the geometry measurer (entity_length), the drawing surveyor (explore_dxf),
the mapping store (ensure_mapping) and the BoM aggregator (parse_dxf),
together with theorems checking the specification's claims about them.

DXF floating-point coordinates and quantities are modeled as real numbers;
Python dicts are modeled as association lists whose lookup returns the
first matching key (Python dict keys are unique, so this is faithful).
-/

set_option maxHeartbeats 1000000

namespace BOMGenerator

/-- A 2D point. DXF coordinates are floats in the source; modeled as reals. -/
abbrev Point : Type := ℝ × ℝ

/-- Geometric payload of a DXF entity as consumed by app.py: a LINE carries
two endpoints, an LWPOLYLINE or POLYLINE carries its vertex list (get_points
and vertices respectively both yield the 2D vertex sequence), an INSERT
(block reference) carries its block name, and every other entity kind is
represented only by its dxftype tag. -/
inductive EntityData : Type
  | line (s e : Point)
  | lwpolyline (pts : List Point)
  | polyline (pts : List Point)
  | insert (name : String)
  | other (tag : String)

/-- A DXF entity: geometric payload plus the optional layer attribute.
The source's hasattr(e.dxf, "layer") test corresponds to layer.isSome. -/
structure Entity : Type where
  data : EntityData
  layer : Option String

/-- The e.dxftype() tag of an entity. -/
def dxftype (e : Entity) : String :=
  match e.data with
  | .line _ _ => "LINE"
  | .lwpolyline _ => "LWPOLYLINE"
  | .polyline _ => "POLYLINE"
  | .insert _ => "INSERT"
  | .other t => t

/-- Python str.upper(): upper-case every character of the string. -/
def str_upper (s : String) : String := ⟨s.data.map Char.toUpper⟩

/-- math.dist on 2D points: the Euclidean distance. -/
noncomputable def math_dist (p q : Point) : ℝ :=
  Real.sqrt ((p.1 - q.1) ^ 2 + (p.2 - q.2) ^ 2)

/-- shapely LineString(pts).length: total length of the piecewise-linear
path through pts, i.e. the sum of the distances of consecutive vertex
pairs. -/
noncomputable def lineString_length (pts : List Point) : ℝ :=
  ((pts.zip pts.tail).map fun pq => math_dist pq.1 pq.2).sum

/-- entity_length from app.py: LINE gives math.dist of its endpoints;
LWPOLYLINE and POLYLINE give LineString(pts).length when there are more
than one point and 0.0 otherwise; every other entity kind gives 0.0. -/
noncomputable def entity_length (e : Entity) : ℝ :=
  match e.data with
  | .line s e_ => math_dist s e_
  | .lwpolyline pts => if pts.length > 1 then lineString_length pts else 0
  | .polyline pts => if pts.length > 1 then lineString_length pts else 0
  | .insert _ => 0
  | .other _ => 0

/-- Spec reference definition (spec section 4.1): arc length of a vertex
list as the sum of consecutive-segment Euclidean distances, written by
direct recursion on the vertex list. -/
noncomputable def arc_length : List Point → ℝ
  | p :: q :: rest => math_dist p q + arc_length (q :: rest)
  | _ => 0

/-- Spec reference definition (spec section 4.1): the measure contract as
the spec words it, to be compared with entity_length. -/
noncomputable def measure_spec (e : Entity) : ℝ :=
  match e.data with
  | .line s e_ => math_dist s e_
  | .lwpolyline pts => if 2 ≤ pts.length then arc_length pts else 0
  | .polyline pts => if 2 ≤ pts.length then arc_length pts else 0
  | .insert _ => 0
  | .other _ => 0

/-- Lookup in a Python dict modeled as an association list: the first
binding of the key, if any. -/
def dict_get {α : Type} : List (String × α) → String → Option α
  | [], _ => none
  | (a, v) :: rest, k => if k = a then some v else dict_get rest k

/-- A defaultdict(int) tally: association list from names to counts. -/
abbrev Tally := List (String × ℕ)

/-- The increment t[k] += 1 of a defaultdict(int): bump an existing
binding in place, or append a fresh binding with count 1. -/
def bump : Tally → String → Tally
  | [], k => [(k, 1)]
  | (a, v) :: rest, k =>
      if a = k then (a, v + 1) :: rest else (a, v) :: bump rest k

/-- Read a tally like a defaultdict(int): absent keys count 0. -/
def tget (t : Tally) (k : String) : ℕ :=
  (dict_get t k).getD 0

/-- The three tallies returned by explore_dxf. -/
structure Survey : Type where
  entity_counts : Tally
  layer_counts : Tally
  block_counts : Tally

/-- One iteration of the explore_dxf loop: count the dxftype tag always,
count the upper-cased layer name when the entity has a layer attribute,
and count the upper-cased block name for INSERT (block reference)
entities. -/
def explore_step (acc : Survey) (e : Entity) : Survey :=
  { entity_counts := bump acc.entity_counts (dxftype e)
    layer_counts :=
      match e.layer with
      | some l => bump acc.layer_counts (str_upper l)
      | none => acc.layer_counts
    block_counts :=
      match e.data with
      | .insert n => bump acc.block_counts (str_upper n)
      | _ => acc.block_counts }

/-- explore_dxf from app.py: a single pass over the model-space entities
producing the three tallies. -/
def explore_dxf (es : List Entity) : Survey :=
  es.foldl explore_step ⟨[], [], []⟩

/-- One entry of mapping.json: a BoM item identifier and a unit string
("m" is the length unit, "pcs" the count unit). -/
structure MappingEntry : Type where
  item : String
  unit : String
deriving DecidableEq

/-- The defaults object of mapping.json. parse_dxf reads length_precision
with .get default 2, so it is optional here; unit_length is written by
ensure_mapping but never read back. -/
structure Defaults : Type where
  unit_length : String
  length_precision : Option ℕ
deriving DecidableEq

/-- The parsed mapping.json: layer table, block table and defaults. -/
structure MappingTable : Type where
  layers : List (String × MappingEntry)
  blocks : List (String × MappingEntry)
  defaults : Defaults
deriving DecidableEq

/-- A mapping file that json.load parsed successfully, as parse_dxf sees
it: each of the three required top-level fields may be absent (an empty
JSON object has all three absent). A missing field raises only at the
moment parse_dxf actually subscripts it. -/
structure MappingJson : Type where
  layers : Option (List (String × MappingEntry))
  blocks : Option (List (String × MappingEntry))
  defaults : Option Defaults
deriving DecidableEq

/-- Content of the mapping file on disk: either json.load parses it into
a JSON document (whose required fields may still be missing), or the
file is malformed and json.load itself raises. -/
inductive MappingFile : Type
  | json (j : MappingJson)
  | malformed (raw : String)
deriving DecidableEq

/-- A fully-valid mapping file: it parses and carries all three required
fields, as every file written by ensure_mapping does. -/
def MappingFile.valid (t : MappingTable) : MappingFile :=
  .json ⟨some t.layers, some t.blocks, some t.defaults⟩

/-- The table synthesized by ensure_mapping when the file is absent:
every surveyed layer maps to itself with unit "m", every surveyed block
maps to itself with unit "pcs", defaults are unit_length "m" and
length_precision 2. -/
def synth_mapping (layers blocks : Tally) : MappingTable :=
  { layers := layers.map fun p => (p.1, MappingEntry.mk p.1 "m")
    blocks := blocks.map fun p => (p.1, MappingEntry.mk p.1 "pcs")
    defaults := Defaults.mk "m" (some 2) }

/-- ensure_mapping from app.py, over the store state at the mapping-file
identity (none when os.path.exists is false). Returns the new store state
and whether a write was performed: when a file exists it is left
untouched, otherwise the synthesized table is persisted. -/
def ensure_mapping (store : Option MappingFile) (layers blocks : Tally) :
    Option MappingFile × Bool :=
  match store with
  | some f => (some f, false)
  | none => (some (.valid (synth_mapping layers blocks)), true)

/-- One line of the accumulated BoM dict of parse_dxf. -/
structure BomLine : Type where
  quantity : ℝ
  unit : String
  source : String

/-- The BoM accumulator: a dict keyed by item identifier. -/
abbrev Bom := List (String × BomLine)

/-- bom.setdefault(item, quantity 0 / unit / source) followed by
bom[item].quantity += amt: an existing line keeps its unit and source and
only its quantity grows; a fresh line is appended with the given unit and
source. -/
noncomputable def bom_add : Bom → String → String → String → ℝ → Bom
  | [], item, u, s, amt => [(item, BomLine.mk (0 + amt) u s)]
  | (k, v) :: rest, item, u, s, amt =>
      if k = item then (k, { v with quantity := v.quantity + amt }) :: rest
      else (k, v) :: bom_add rest item u s amt

/-- The accumulated quantity of an item, 0 when the item has no line. -/
noncomputable def bom_qty (bom : Bom) (k : String) : ℝ :=
  match dict_get bom k with
  | some v => v.quantity
  | none => 0

/-- Whether the entity is curve-like, i.e. its dxftype is one of LINE,
LWPOLYLINE, POLYLINE (the first branch of the parse_dxf loop). -/
def is_curve (e : Entity) : Bool :=
  match e.data with
  | .line _ _ => true
  | .lwpolyline _ => true
  | .polyline _ => true
  | _ => false

/-- One iteration of the parse_dxf loop, specialized to a fully-valid
mapping table on which every field subscript succeeds (the general step
over a parsed JSON document is parse_step_json below; on a valid table
the two agree, see parse_step_json_valid): a curve-like entity whose
upper-cased layer name (missing layer read as "") has a mapping entry
contributes its length divided by 1000 (mm to m) under source "Layer"; an
INSERT whose upper-cased block name has a mapping entry contributes 1
under source "Block"; everything else leaves the BoM unchanged. -/
noncomputable def parse_step (m : MappingTable) (bom : Bom) (e : Entity) : Bom :=
  match e.data with
  | .line _ _ | .lwpolyline _ | .polyline _ =>
      match dict_get m.layers (str_upper (e.layer.getD "")) with
      | some en => bom_add bom en.item en.unit "Layer" (entity_length e / 1000)
      | none => bom
  | .insert n =>
      match dict_get m.blocks (str_upper n) with
      | some en => bom_add bom en.item en.unit "Block" 1
      | none => bom
  | .other _ => bom

/-- Python int() on a (real-modeled) float: truncation toward zero. -/
noncomputable def py_int (x : ℝ) : ℤ :=
  if 0 ≤ x then ⌊x⌋ else ⌈x⌉

/-- Python round() to the nearest integer, ties going to the even
neighbour (banker's rounding). -/
noncomputable def py_round (x : ℝ) : ℤ :=
  if Int.fract x = 1 / 2 then 2 * round (x / 2) else round x

/-- Python round(x, p): round at p decimal places. -/
noncomputable def py_round_to (x : ℝ) (p : ℕ) : ℝ :=
  (py_round (x * 10 ^ p) : ℝ) / 10 ^ p

/-- The per-line post-pass of parse_dxf, specialized to a fully-valid
mapping table (the general form over a parsed JSON document is
norm_line_json below; on a valid table the two agree): a line whose unit
is exactly "m" has its quantity rounded to the configured decimal
precision (default 2); every other unit has its quantity converted with
int(), i.e. truncated. -/
noncomputable def norm_line (m : MappingTable) (v : BomLine) : BomLine :=
  if v.unit = "m" then
    { v with quantity := py_round_to v.quantity (m.defaults.length_precision.getD 2) }
  else
    { v with quantity := (py_int v.quantity : ℝ) }

/-- The post-pass loop of parse_dxf applied to every accumulated line,
specialized to a fully-valid mapping table. -/
noncomputable def normalize_bom (m : MappingTable) (bom : Bom) : Bom :=
  bom.map fun p => (p.1, norm_line m p.2)

/-- How parse_dxf can fail: open() raises FileNotFoundError when the
file is absent; json.load raises eagerly on a malformed file; and a
subscript of a missing required field raises KeyError lazily, only at
the moment of access. -/
inductive ParseError : Type
  | fileNotFound
  | jsonDecode
  | keyError (field : String)
deriving DecidableEq

/-- One iteration of the parse_dxf loop over a parsed JSON document,
with Python's lazy field access: for a curve-like entity the loop
subscripts mapping with "layers" (raising KeyError when the field is
absent, even if the layer would then be unmapped) before the membership
test; for an INSERT it subscripts "blocks" likewise; any other entity
kind touches no field at all. -/
noncomputable def parse_step_json (j : MappingJson) (bom : Bom) (e : Entity) :
    Except ParseError Bom :=
  match e.data with
  | .line _ _ | .lwpolyline _ | .polyline _ =>
      match j.layers with
      | none => .error (.keyError "layers")
      | some ls =>
          match dict_get ls (str_upper (e.layer.getD "")) with
          | some en =>
              .ok (bom_add bom en.item en.unit "Layer" (entity_length e / 1000))
          | none => .ok bom
  | .insert n =>
      match j.blocks with
      | none => .error (.keyError "blocks")
      | some bs =>
          match dict_get bs (str_upper n) with
          | some en => .ok (bom_add bom en.item en.unit "Block" 1)
          | none => .ok bom
  | .other _ => .ok bom

/-- The entity loop of parse_dxf: process entities in order, aborting at
the first raised error as the Python exception does. -/
noncomputable def parse_loop (j : MappingJson) :
    Bom → List Entity → Except ParseError Bom
  | bom, [] => .ok bom
  | bom, e :: rest =>
      match parse_step_json j bom e with
      | .error err => .error err
      | .ok bom2 => parse_loop j bom2 rest

/-- The per-line post-pass over a parsed JSON document, with lazy field
access: only a line whose unit is exactly "m" subscripts mapping with
"defaults" (raising KeyError when the field is absent); any other unit
is truncated with int() and touches no field. -/
noncomputable def norm_line_json (j : MappingJson) (v : BomLine) :
    Except ParseError BomLine :=
  if v.unit = "m" then
    match j.defaults with
    | none => .error (.keyError "defaults")
    | some d =>
        .ok { v with quantity := py_round_to v.quantity (d.length_precision.getD 2) }
  else .ok { v with quantity := (py_int v.quantity : ℝ) }

/-- The post-pass loop of parse_dxf over a parsed JSON document: process
the accumulated lines in order, aborting at the first raised error. -/
noncomputable def normalize_bom_json (j : MappingJson) :
    Bom → Except ParseError Bom
  | [] => .ok []
  | (k, v) :: rest =>
      match norm_line_json j v with
      | .error err => .error err
      | .ok w =>
          match normalize_bom_json j rest with
          | .error err => .error err
          | .ok ws => .ok ((k, w) :: ws)

/-- parse_dxf from app.py over the store state: open and json.load the
mapping file (absent file and malformed file fail eagerly), run the
aggregation loop over the entities starting from an empty BoM dict, then
apply the rounding post-pass; required fields of the parsed document are
subscripted lazily inside those loops. -/
noncomputable def parse_dxf (store : Option MappingFile) (es : List Entity) :
    Except ParseError Bom :=
  match store with
  | none => .error .fileNotFound
  | some (.malformed _) => .error .jsonDecode
  | some (.json j) =>
      match parse_loop j [] es with
      | .error err => .error err
      | .ok bom => normalize_bom_json j bom

/-- Mapping of the C1 end-to-end example: layer PIPE to item Pipe-25mm. -/
def pipe_mapping : MappingTable :=
  ⟨[("PIPE", ⟨"Pipe-25mm", "m"⟩)], [], ⟨"m", some 2⟩⟩

/-- First segment of the C1 example: native length 1000 on layer PIPE. -/
noncomputable def pipe_seg1 : Entity := ⟨.line (0, 0) (1000, 0), some "PIPE"⟩

/-- Second segment of the C1 example: native length 500 on layer PIPE. -/
noncomputable def pipe_seg2 : Entity := ⟨.line (0, 0) (0, 500), some "PIPE"⟩

/-- Mapping of the C4 end-to-end example: block VALVE to item Valve-Gate. -/
def valve_mapping : MappingTable :=
  ⟨[], [("VALVE", ⟨"Valve-Gate", "pcs"⟩)], ⟨"m", some 2⟩⟩

/-- A block reference named VALVE for the C4 example. -/
def valve_ins : Entity := ⟨.insert "VALVE", some "0"⟩

/-- Mapping of the C9 example: layer A and block B both map to item X. -/
def mixed_mapping : MappingTable :=
  ⟨[("A", ⟨"X", "m"⟩)], [("B", ⟨"X", "pcs"⟩)], ⟨"m", some 2⟩⟩

/-- A segment of native length 1000 on layer A for the C9 example. -/
noncomputable def mixed_line : Entity := ⟨.line (0, 0) (1000, 0), some "A"⟩

/-- A block reference named B for the C9 example. -/
def mixed_ins : Entity := ⟨.insert "B", some "0"⟩

/-- Mapping of the C10 example: layer C maps to item Y with the custom
unit string "mm", which is not the length unit "m". -/
def custom_mapping : MappingTable :=
  ⟨[("C", ⟨"Y", "mm"⟩)], [], ⟨"m", some 2⟩⟩

/-- A segment of native length 1500 on layer C for the C10 example. -/
noncomputable def custom_line : Entity := ⟨.line (0, 0) (1500, 0), some "C"⟩

/-- A mapping with empty layer and block tables, for skip examples. -/
def empty_mapping : MappingTable := ⟨[], [], ⟨"m", some 2⟩⟩

/-- A block reference whose name is unmapped in empty_mapping. -/
def skip_ins : Entity := ⟨.insert "V", none⟩

/-- A block reference on layer L1, for the C6 permutation witness. -/
def survey_entA : Entity := ⟨.insert "V", some "L1"⟩

/-- A TEXT-tagged entity on layer L2, for the C6 permutation witness. -/
def survey_entB : Entity := ⟨.other "TEXT", some "L2"⟩

theorem math_dist_eval (x1 y1 x2 y2 d : ℝ) (hd : 0 ≤ d)
    (h : (x1 - x2) ^ 2 + (y1 - y2) ^ 2 = d ^ 2) :
    math_dist (x1, y1) (x2, y2) = d := by
  have he : math_dist (x1, y1) (x2, y2)
      = Real.sqrt ((x1 - x2) ^ 2 + (y1 - y2) ^ 2) := rfl
  rw [he, h, Real.sqrt_sq hd]

theorem lineString_length_eq_arc_length :
    ∀ pts : List Point, lineString_length pts = arc_length pts
  | [] => by simp [lineString_length, arc_length]
  | [p] => by simp [lineString_length, arc_length]
  | p :: q :: rest => by
      have ih := lineString_length_eq_arc_length (q :: rest)
      have h1 : lineString_length (p :: q :: rest)
          = math_dist p q + lineString_length (q :: rest) := by
        simp [lineString_length]
      rw [h1, ih, arc_length]

theorem py_round_intCast (n : ℤ) : py_round ((n : ℝ)) = n := by
  unfold py_round
  rw [Int.fract_intCast, if_neg (by norm_num : ¬ (0 : ℝ) = 1 / 2), round_intCast]

/-- Claim C2: entity_length is total and agrees with the spec's measure
contract: a segment gives the Euclidean distance of its endpoints (for
instance 5 for a segment from the origin to (3, 4)), a polyline with at
least two points gives the sum of consecutive-segment Euclidean
distances, and a polyline with fewer than two points or any other entity
kind gives 0; being a total function, it never fails. -/
theorem C2_entity_length_matches_measure :
    (∀ e : Entity, entity_length e = measure_spec e) ∧
    entity_length ⟨.line (0, 0) (3, 4), some "0"⟩ = 5 ∧
    (∀ l : Option String, entity_length ⟨.polyline [], l⟩ = 0) ∧
    (∀ (p : Point) (l : Option String), entity_length ⟨.polyline [p], l⟩ = 0) ∧
    (∀ (t : String) (l : Option String), entity_length ⟨.other t, l⟩ = 0) := by
  refine ⟨?_, ?_, ?_, ?_, ?_⟩
  · intro e
    obtain ⟨d, l⟩ := e
    cases d with
    | line s e_ => rfl
    | lwpolyline pts =>
        simp only [entity_length, measure_spec]
        by_cases h : 1 < pts.length
        · rw [if_pos h, if_pos (by omega : 2 ≤ pts.length),
            lineString_length_eq_arc_length]
        · rw [if_neg h, if_neg (by omega : ¬ 2 ≤ pts.length)]
    | polyline pts =>
        simp only [entity_length, measure_spec]
        by_cases h : 1 < pts.length
        · rw [if_pos h, if_pos (by omega : 2 ≤ pts.length),
            lineString_length_eq_arc_length]
        · rw [if_neg h, if_neg (by omega : ¬ 2 ≤ pts.length)]
    | insert n => rfl
    | other t => rfl
  · show math_dist (0, 0) (3, 4) = 5
    exact math_dist_eval 0 0 3 4 5 (by norm_num) (by norm_num)
  · intro l; rfl
  · intro p l; rfl
  · intro t l; rfl

theorem tget_bump (t : Tally) (k q : String) :
    tget (bump t k) q = tget t q + (if q = k then 1 else 0) := by
  induction t with
  | nil =>
      by_cases h : q = k
      · simp [bump, tget, dict_get, h]
      · simp [bump, tget, dict_get, h]
  | cons hd tl ih =>
      obtain ⟨a, n⟩ := hd
      by_cases hak : a = k
      · subst hak
        by_cases hq : q = a
        · simp [bump, tget, dict_get, hq]
        · simp [bump, tget, dict_get, hq]
      · by_cases hq : q = a
        · have hqk : ¬ q = k := fun hh => hak ((hq.symm.trans hh))
          simp [bump, tget, dict_get, hak, hq, hqk]
        · simp [bump, tget, dict_get, hak, hq]
          exact ih

theorem survey_entity_counts_foldl :
    ∀ (es : List Entity) (acc : Survey) (k : String),
    tget ((es.foldl explore_step acc).entity_counts) k =
      tget acc.entity_counts k + es.countP (fun e => dxftype e == k) := by
  intro es
  induction es with
  | nil => intro acc k; simp
  | cons e rest ih =>
      intro acc k
      rw [List.foldl_cons, ih, List.countP_cons]
      have hstep : (explore_step acc e).entity_counts
          = bump acc.entity_counts (dxftype e) := rfl
      rw [hstep, tget_bump]
      by_cases h : k = dxftype e
      · simp [h]
        omega
      · have h2 : ¬ dxftype e = k := fun hh => h hh.symm
        simp [h, h2]

theorem survey_layer_counts_foldl :
    ∀ (es : List Entity) (acc : Survey) (k : String),
    tget ((es.foldl explore_step acc).layer_counts) k =
      tget acc.layer_counts k +
        es.countP (fun e => match e.layer with
          | some l => str_upper l == k
          | none => false) := by
  intro es
  induction es with
  | nil => intro acc k; simp
  | cons e rest ih =>
      intro acc k
      rw [List.foldl_cons, ih, List.countP_cons]
      obtain ⟨d, l⟩ := e
      cases l with
      | none =>
          have hstep : (explore_step acc ⟨d, none⟩).layer_counts
              = acc.layer_counts := rfl
          rw [hstep]
          simp
      | some s =>
          have hstep : (explore_step acc ⟨d, some s⟩).layer_counts
              = bump acc.layer_counts (str_upper s) := rfl
          rw [hstep, tget_bump]
          by_cases h : k = str_upper s
          · simp [h]
            omega
          · have h2 : ¬ str_upper s = k := fun hh => h hh.symm
            simp [h, h2]

theorem survey_block_counts_foldl :
    ∀ (es : List Entity) (acc : Survey) (k : String),
    tget ((es.foldl explore_step acc).block_counts) k =
      tget acc.block_counts k +
        es.countP (fun e => match e.data with
          | .insert n => str_upper n == k
          | _ => false) := by
  intro es
  induction es with
  | nil => intro acc k; simp
  | cons e rest ih =>
      intro acc k
      rw [List.foldl_cons, ih, List.countP_cons]
      obtain ⟨d, l⟩ := e
      cases d with
      | insert n =>
          have hstep : (explore_step acc ⟨.insert n, l⟩).block_counts
              = bump acc.block_counts (str_upper n) := rfl
          rw [hstep, tget_bump]
          by_cases h : k = str_upper n
          · simp [h]
            omega
          · have h2 : ¬ str_upper n = k := fun hh => h hh.symm
            simp [h, h2]
      | line s e_ =>
          have hstep : (explore_step acc ⟨.line s e_, l⟩).block_counts
              = acc.block_counts := rfl
          rw [hstep]
          simp
      | lwpolyline pts =>
          have hstep : (explore_step acc ⟨.lwpolyline pts, l⟩).block_counts
              = acc.block_counts := rfl
          rw [hstep]
          simp
      | polyline pts =>
          have hstep : (explore_step acc ⟨.polyline pts, l⟩).block_counts
              = acc.block_counts := rfl
          rw [hstep]
          simp
      | other t =>
          have hstep : (explore_step acc ⟨.other t, l⟩).block_counts
              = acc.block_counts := rfl
          rw [hstep]
          simp

/-- Claim C6: the three survey tallies are permutation-invariant, and
each is characterized as a count over the entity list: the entity-type
tally counts every entity by its dxftype tag, the layer tally counts
every entity exposing a layer attribute by its upper-cased layer name,
and the block tally counts every block reference by its upper-cased
block name. -/
theorem C6_survey_permutation_invariant :
    (∀ es es2 : List Entity, es.Perm es2 → ∀ k : String,
        tget (explore_dxf es).entity_counts k
            = tget (explore_dxf es2).entity_counts k ∧
        tget (explore_dxf es).layer_counts k
            = tget (explore_dxf es2).layer_counts k ∧
        tget (explore_dxf es).block_counts k
            = tget (explore_dxf es2).block_counts k) ∧
    (∀ (es : List Entity) (k : String),
        tget (explore_dxf es).entity_counts k
          = es.countP (fun e => dxftype e == k) ∧
        tget (explore_dxf es).layer_counts k
          = es.countP (fun e => match e.layer with
              | some l => str_upper l == k
              | none => false) ∧
        tget (explore_dxf es).block_counts k
          = es.countP (fun e => match e.data with
              | .insert n => str_upper n == k
              | _ => false)) := by
  have hent : ∀ (es : List Entity) (k : String),
      tget (explore_dxf es).entity_counts k
        = es.countP (fun e => dxftype e == k) := by
    intro es k
    have h := survey_entity_counts_foldl es ⟨[], [], []⟩ k
    simpa [explore_dxf, tget, dict_get] using h
  have hlay : ∀ (es : List Entity) (k : String),
      tget (explore_dxf es).layer_counts k
        = es.countP (fun e => match e.layer with
            | some l => str_upper l == k
            | none => false) := by
    intro es k
    have h := survey_layer_counts_foldl es ⟨[], [], []⟩ k
    simpa [explore_dxf, tget, dict_get] using h
  have hblk : ∀ (es : List Entity) (k : String),
      tget (explore_dxf es).block_counts k
        = es.countP (fun e => match e.data with
            | .insert n => str_upper n == k
            | _ => false) := by
    intro es k
    have h := survey_block_counts_foldl es ⟨[], [], []⟩ k
    simpa [explore_dxf, tget, dict_get] using h
  refine ⟨?_, fun es k => ⟨hent es k, hlay es k, hblk es k⟩⟩
  intro es es2 hp k
  exact ⟨by rw [hent, hent, hp.countP_eq],
    by rw [hlay, hlay, hp.countP_eq],
    by rw [hblk, hblk, hp.countP_eq]⟩

/-- Witness for C6 at a concrete two-entity drawing and its swap. -/
theorem C6_witness_survey_perm :
    tget (explore_dxf [survey_entA, survey_entB]).layer_counts "L1"
      = tget (explore_dxf [survey_entB, survey_entA]).layer_counts "L1" :=
  (C6_survey_permutation_invariant.1 [survey_entA, survey_entB]
      [survey_entB, survey_entA]
      (List.Perm.swap survey_entB survey_entA []) "L1").2.1

theorem dict_get_map_to_self (u : String) :
    ∀ (t : Tally) (k : String),
    dict_get (t.map fun p => (p.1, MappingEntry.mk p.1 u)) k
      = if k ∈ t.map Prod.fst then some (MappingEntry.mk k u) else none
  | [], k => by simp [dict_get]
  | (a, n) :: rest, k => by
      by_cases h : k = a
      · subst h
        simp [dict_get]
      · have h1 : dict_get (((a, n) :: rest).map
              fun p => (p.1, MappingEntry.mk p.1 u)) k
            = dict_get (rest.map fun p => (p.1, MappingEntry.mk p.1 u)) k := by
          simp [dict_get, h]
        rw [h1, dict_get_map_to_self u rest k, List.map_cons]
        by_cases hm : k ∈ List.map Prod.fst rest
        · rw [if_pos hm, if_pos (List.mem_cons_of_mem a hm)]
        · rw [if_neg hm, if_neg (by simp [List.mem_cons, h, hm])]

/-- Claim C3: when no mapping exists at the identity, ensure_mapping
persists exactly the synthesized table: each surveyed layer mapped to
itself with the length unit "m", each surveyed block mapped to itself
with the count unit "pcs", defaults unit_length "m" with precision 2 —
and nothing else (the key sets are exactly the surveyed layer and block
names). -/
theorem C3_synth_mapping_exact :
    (∀ layers blocks : Tally,
        ensure_mapping none layers blocks
          = (some (.valid (synth_mapping layers blocks)), true)) ∧
    (∀ (layers blocks : Tally) (k : String),
        dict_get (synth_mapping layers blocks).layers k
          = if k ∈ layers.map Prod.fst then some (MappingEntry.mk k "m")
            else none) ∧
    (∀ (layers blocks : Tally) (k : String),
        dict_get (synth_mapping layers blocks).blocks k
          = if k ∈ blocks.map Prod.fst then some (MappingEntry.mk k "pcs")
            else none) ∧
    (∀ layers blocks : Tally,
        (synth_mapping layers blocks).defaults = Defaults.mk "m" (some 2) ∧
        (synth_mapping layers blocks).layers.map Prod.fst
            = layers.map Prod.fst ∧
        (synth_mapping layers blocks).blocks.map Prod.fst
            = blocks.map Prod.fst) := by
  refine ⟨fun _ _ => rfl, ?_, ?_, ?_⟩
  · intro L B k
    exact dict_get_map_to_self "m" L k
  · intro L B k
    exact dict_get_map_to_self "pcs" B k
  · intro L B
    refine ⟨rfl, ?_, ?_⟩ <;> simp [synth_mapping]

/-- Claim C5: load_or_init is idempotent: an existing mapping is returned
verbatim with no write and no merging with the current survey, and a
second call right after any first call returns the same store state and
performs no write. -/
theorem C5_ensure_mapping_idempotent :
    (∀ (f : MappingFile) (layers blocks : Tally),
        ensure_mapping (some f) layers blocks = (some f, false)) ∧
    (∀ (store : Option MappingFile) (layers blocks layers2 blocks2 : Tally),
        ensure_mapping (ensure_mapping store layers blocks).1 layers2 blocks2
          = ((ensure_mapping store layers blocks).1, false)) := by
  refine ⟨fun _ _ _ => rfl, ?_⟩
  intro store L B L2 B2
  cases store with
  | some f => rfl
  | none => rfl

/-- Counterexample to claim C7 as stated: a present mapping file that is
an empty JSON object — structurally invalid, every required field
missing — processed against a drawing with a single TEXT entity returns
an empty BoM with no error of any kind, instead of failing with a
mapping-load error. -/
theorem C7_counterexample_silent_success :
    parse_dxf (some (.json ⟨none, none, none⟩)) [survey_entB] = .ok [] := rfl

/-- Claim C7, corrected: a present mapping file is never silently
replaced by a synthesized one (ensure_mapping leaves any present file
untouched and performs no write, malformed or not), and a malformed file
always fails eagerly at json.load; but a file that parses with a
required field missing fails lazily, exactly when the field is first
subscripted — "layers" on processing a curve-like entity, "blocks" on
processing a block reference, "defaults" on post-processing a
length-unit line — so a drawing that triggers no such access (for
instance an empty one) succeeds silently despite the invalid file. -/
theorem C7_invalid_mapping_lazy :
    (∀ (j : MappingJson) (bom : Bom) (e : Entity),
        is_curve e = true → j.layers = none →
        parse_step_json j bom e = .error (.keyError "layers")) ∧
    (∀ (j : MappingJson) (bom : Bom) (n : String) (l : Option String),
        j.blocks = none →
        parse_step_json j bom ⟨.insert n, l⟩ = .error (.keyError "blocks")) ∧
    (∀ (j : MappingJson) (v : BomLine),
        v.unit = "m" → j.defaults = none →
        norm_line_json j v = .error (.keyError "defaults")) ∧
    (∀ (raw : String) (es : List Entity),
        parse_dxf (some (.malformed raw)) es = .error .jsonDecode) ∧
    (∀ (raw : String) (layers blocks : Tally),
        ensure_mapping (some (.malformed raw)) layers blocks
          = (some (.malformed raw), false)) ∧
    (∀ (j : MappingJson) (layers blocks : Tally),
        ensure_mapping (some (.json j)) layers blocks
          = (some (.json j), false)) ∧
    (∀ (f : MappingFile) (layers blocks : Tally),
        (ensure_mapping (some f) layers blocks).2 = false) ∧
    (∀ j : MappingJson, parse_dxf (some (.json j)) [] = .ok []) ∧
    parse_dxf (some (.json ⟨none, none, none⟩)) [pipe_seg1]
      = .error (.keyError "layers") := by
  refine ⟨?_, ?_, ?_, fun _ _ => rfl, fun _ _ _ => rfl, fun _ _ _ => rfl,
    fun _ _ _ => rfl, fun _ => rfl, rfl⟩
  · intro j bom e hc hl
    obtain ⟨d, l⟩ := e
    cases d with
    | line s e_ => simp only [parse_step_json, hl]
    | lwpolyline pts => simp only [parse_step_json, hl]
    | polyline pts => simp only [parse_step_json, hl]
    | insert n => simp [is_curve] at hc
    | other tg => simp [is_curve] at hc
  · intro j bom n l hb
    simp only [parse_step_json, hb]
  · intro j v hm hd
    unfold norm_line_json
    rw [if_pos hm, hd]

/-- Witness for C7's lazy-failure conjuncts at the empty JSON document
and a concrete mapped-layer segment. -/
theorem C7_witness_lazy_key :
    parse_step_json ⟨none, none, none⟩ [] pipe_seg1
      = .error (.keyError "layers") :=
  C7_invalid_mapping_lazy.1 ⟨none, none, none⟩ [] pipe_seg1 rfl rfl

theorem dict_get_bom_add_absent :
    ∀ (bom : Bom) (item u s : String) (amt : ℝ),
    dict_get bom item = none →
    dict_get (bom_add bom item u s amt) item = some (BomLine.mk (0 + amt) u s)
  | [], item, u, s, amt => fun _ => by simp [bom_add, dict_get]
  | (k, v) :: rest, item, u, s, amt => fun hnone => by
      have hki : ¬ k = item := by
        intro hh
        subst hh
        simp [dict_get] at hnone
      have h2 : ¬ item = k := fun hh => hki hh.symm
      have hrest : dict_get rest item = none := by
        simpa [dict_get, h2] using hnone
      simp [bom_add, hki, dict_get, h2,
        dict_get_bom_add_absent rest item u s amt hrest]

theorem dict_get_bom_add_present :
    ∀ (bom : Bom) (item u s : String) (amt : ℝ) (v : BomLine),
    dict_get bom item = some v →
    dict_get (bom_add bom item u s amt) item
      = some (BomLine.mk (v.quantity + amt) v.unit v.source)
  | [], item, u, s, amt, v => fun hsome => by simp [dict_get] at hsome
  | (k, w) :: rest, item, u, s, amt, v => fun hsome => by
      by_cases h : k = item
      · subst h
        have hw : w = v := by simpa [dict_get] using hsome
        subst hw
        simp [bom_add, dict_get]
      · have h2 : ¬ item = k := fun hh => h hh.symm
        have hrest : dict_get rest item = some v := by
          simpa [dict_get, h2] using hsome
        simp [bom_add, h, dict_get, h2,
          dict_get_bom_add_present rest item u s amt v hrest]

theorem dict_get_bom_add_other :
    ∀ (bom : Bom) (item u s q : String) (amt : ℝ),
    ¬ q = item →
    dict_get (bom_add bom item u s amt) q = dict_get bom q
  | [], item, u, s, q, amt => fun hq => by simp [bom_add, dict_get, hq]
  | (k, w) :: rest, item, u, s, q, amt => fun hq => by
      by_cases h : k = item
      · subst h
        simp [bom_add, dict_get, hq]
      · by_cases hqk : q = k
        · simp [bom_add, h, dict_get, hqk]
        · simp [bom_add, h, dict_get, hqk,
            dict_get_bom_add_other rest item u s q amt hq]

theorem bom_qty_bom_add_self (bom : Bom) (item u s : String) (amt : ℝ) :
    bom_qty (bom_add bom item u s amt) item = bom_qty bom item + amt := by
  cases hb : dict_get bom item with
  | none =>
      have h1 := dict_get_bom_add_absent bom item u s amt hb
      simp [bom_qty, h1, hb]
  | some v =>
      have h1 := dict_get_bom_add_present bom item u s amt v hb
      simp [bom_qty, h1, hb]

theorem bom_add_preserves (bom : Bom) (item u s k : String) (amt : ℝ)
    (v : BomLine) (h : dict_get bom k = some v) :
    ∃ q : ℝ, dict_get (bom_add bom item u s amt) k
        = some (BomLine.mk q v.unit v.source) := by
  by_cases hk : k = item
  · subst hk
    exact ⟨v.quantity + amt, dict_get_bom_add_present bom k u s amt v h⟩
  · exact ⟨v.quantity, by rw [dict_get_bom_add_other bom item u s k amt hk, h]⟩

theorem parse_step_curve (m : MappingTable) (bom : Bom) (e : Entity)
    (en : MappingEntry) (hc : is_curve e = true)
    (hl : dict_get m.layers (str_upper (e.layer.getD "")) = some en) :
    parse_step m bom e
      = bom_add bom en.item en.unit "Layer" (entity_length e / 1000) := by
  obtain ⟨d, l⟩ := e
  cases d with
  | line s e_ => simp only [parse_step, hl]
  | lwpolyline pts => simp only [parse_step, hl]
  | polyline pts => simp only [parse_step, hl]
  | insert n => simp [is_curve] at hc
  | other t => simp [is_curve] at hc

theorem parse_step_block (m : MappingTable) (bom : Bom) (n : String)
    (l : Option String) (en : MappingEntry)
    (hb : dict_get m.blocks (str_upper n) = some en) :
    parse_step m bom ⟨.insert n, l⟩
      = bom_add bom en.item en.unit "Block" 1 := by
  simp only [parse_step, hb]

theorem parse_step_skip (m : MappingTable) (bom : Bom) (e : Entity)
    (h1 : is_curve e = true →
      dict_get m.layers (str_upper (e.layer.getD "")) = none)
    (h2 : ∀ n : String, e.data = .insert n →
      dict_get m.blocks (str_upper n) = none) :
    parse_step m bom e = bom := by
  obtain ⟨d, l⟩ := e
  cases d with
  | line s e_ => simp only [parse_step, h1 rfl]
  | lwpolyline pts => simp only [parse_step, h1 rfl]
  | polyline pts => simp only [parse_step, h1 rfl]
  | insert n => simp only [parse_step, h2 n rfl]
  | other t => rfl

theorem dict_get_normalize (m : MappingTable) :
    ∀ (bom : Bom) (k : String),
    dict_get (normalize_bom m bom) k = (dict_get bom k).map (norm_line m)
  | [], k => rfl
  | (a, v) :: rest, k => by
      by_cases h : k = a
      · subst h
        simp [normalize_bom, dict_get]
      · simp only [normalize_bom, List.map_cons, dict_get, if_neg h]
        exact dict_get_normalize m rest k

theorem norm_line_fields (m : MappingTable) (v : BomLine) :
    ∃ q : ℝ, norm_line m v = BomLine.mk q v.unit v.source := by
  unfold norm_line
  by_cases h : v.unit = "m"
  · exact ⟨_, by rw [if_pos h]⟩
  · exact ⟨_, by rw [if_neg h]⟩

theorem parse_step_json_valid (t : MappingTable) (bom : Bom) (e : Entity) :
    parse_step_json ⟨some t.layers, some t.blocks, some t.defaults⟩ bom e
      = .ok (parse_step t bom e) := by
  obtain ⟨d, l⟩ := e
  cases d with
  | line s e_ =>
      rcases hdg : dict_get t.layers (str_upper (l.getD "")) with _ | en <;>
        simp only [parse_step_json, parse_step, hdg]
  | lwpolyline pts =>
      rcases hdg : dict_get t.layers (str_upper (l.getD "")) with _ | en <;>
        simp only [parse_step_json, parse_step, hdg]
  | polyline pts =>
      rcases hdg : dict_get t.layers (str_upper (l.getD "")) with _ | en <;>
        simp only [parse_step_json, parse_step, hdg]
  | insert n =>
      rcases hdg : dict_get t.blocks (str_upper n) with _ | en <;>
        simp only [parse_step_json, parse_step, hdg]
  | other tg => rfl

theorem parse_loop_valid (t : MappingTable) :
    ∀ (es : List Entity) (bom : Bom),
    parse_loop ⟨some t.layers, some t.blocks, some t.defaults⟩ bom es
      = .ok (es.foldl (parse_step t) bom)
  | [], bom => rfl
  | e :: rest, bom => by
      simp only [parse_loop, parse_step_json_valid t bom e, List.foldl_cons]
      exact parse_loop_valid t rest (parse_step t bom e)

theorem norm_line_json_valid (t : MappingTable) (v : BomLine) :
    norm_line_json ⟨some t.layers, some t.blocks, some t.defaults⟩ v
      = .ok (norm_line t v) := by
  unfold norm_line_json norm_line
  by_cases h : v.unit = "m"
  · rw [if_pos h, if_pos h]
  · rw [if_neg h, if_neg h]

theorem normalize_bom_json_valid (t : MappingTable) :
    ∀ bom : Bom,
    normalize_bom_json ⟨some t.layers, some t.blocks, some t.defaults⟩ bom
      = .ok (normalize_bom t bom)
  | [] => rfl
  | (k, v) :: rest => by
      simp only [normalize_bom_json, norm_line_json_valid t v,
        normalize_bom_json_valid t rest, normalize_bom, List.map_cons]

theorem parse_dxf_valid (t : MappingTable) (es : List Entity) :
    parse_dxf (some (.valid t)) es
      = .ok (normalize_bom t (es.foldl (parse_step t) [])) := by
  simp only [parse_dxf, MappingFile.valid, parse_loop_valid t es [],
    normalize_bom_json_valid t]

/-- Claim C1: a curve-like entity whose upper-cased layer name is mapped
adds its measured length divided by 1000 (millimeters to meters) to the
mapped item's quantity, creating the line with the entry's unit and
source "Layer" when the item is new; end to end, the PIPE drawing with
two segments of native lengths 1000 and 500 yields exactly one BoM line
for item Pipe-25mm with quantity 1.50, unit "m", source "Layer". -/
theorem C1_layer_length_aggregation :
    (∀ (m : MappingTable) (bom : Bom) (e : Entity) (en : MappingEntry),
        is_curve e = true →
        dict_get m.layers (str_upper (e.layer.getD "")) = some en →
        bom_qty (parse_step m bom e) en.item
            = bom_qty bom en.item + entity_length e / 1000 ∧
        (dict_get bom en.item = none →
          dict_get (parse_step m bom e) en.item
            = some (BomLine.mk (0 + entity_length e / 1000) en.unit "Layer"))) ∧
    parse_dxf (some (.valid pipe_mapping)) [pipe_seg1, pipe_seg2]
      = .ok [("Pipe-25mm", BomLine.mk 1.5 "m" "Layer")] := by
  constructor
  · intro m bom e en hc hl
    rw [parse_step_curve m bom e en hc hl]
    exact ⟨bom_qty_bom_add_self bom en.item en.unit "Layer" (entity_length e / 1000),
      fun habs =>
        dict_get_bom_add_absent bom en.item en.unit "Layer"
          (entity_length e / 1000) habs⟩
  · have hs1 : entity_length pipe_seg1 = 1000 := by
      have h0 : entity_length pipe_seg1 = math_dist (0, 0) (1000, 0) := rfl
      rw [h0]
      exact math_dist_eval 0 0 1000 0 1000 (by norm_num) (by norm_num)
    have hs2 : entity_length pipe_seg2 = 500 := by
      have h0 : entity_length pipe_seg2 = math_dist (0, 0) (0, 500) := rfl
      rw [h0]
      exact math_dist_eval 0 0 0 500 500 (by norm_num) (by norm_num)
    have hstep1 : parse_step pipe_mapping [] pipe_seg1
        = bom_add [] "Pipe-25mm" "m" "Layer" (entity_length pipe_seg1 / 1000) :=
      parse_step_curve pipe_mapping [] pipe_seg1
        (MappingEntry.mk "Pipe-25mm" "m") rfl (by decide)
    have hb1 : bom_add [] "Pipe-25mm" "m" "Layer" (entity_length pipe_seg1 / 1000)
        = [("Pipe-25mm",
            BomLine.mk (0 + entity_length pipe_seg1 / 1000) "m" "Layer")] := rfl
    have hstep2 : parse_step pipe_mapping
        [("Pipe-25mm", BomLine.mk (0 + entity_length pipe_seg1 / 1000) "m" "Layer")]
        pipe_seg2
        = bom_add
            [("Pipe-25mm",
              BomLine.mk (0 + entity_length pipe_seg1 / 1000) "m" "Layer")]
            "Pipe-25mm" "m" "Layer" (entity_length pipe_seg2 / 1000) :=
      parse_step_curve pipe_mapping _ pipe_seg2
        (MappingEntry.mk "Pipe-25mm" "m") rfl (by decide)
    have hb2 : bom_add
        [("Pipe-25mm", BomLine.mk (0 + entity_length pipe_seg1 / 1000) "m" "Layer")]
        "Pipe-25mm" "m" "Layer" (entity_length pipe_seg2 / 1000)
        = [("Pipe-25mm",
            BomLine.mk ((0 + entity_length pipe_seg1 / 1000)
              + entity_length pipe_seg2 / 1000) "m" "Layer")] := by
      simp [bom_add]
    have hpd : parse_dxf (some (.valid pipe_mapping)) [pipe_seg1, pipe_seg2]
        = .ok (normalize_bom pipe_mapping
            (parse_step pipe_mapping (parse_step pipe_mapping [] pipe_seg1)
              pipe_seg2)) :=
      parse_dxf_valid pipe_mapping [pipe_seg1, pipe_seg2]
    rw [hpd, hstep1, hb1, hstep2, hb2, hs1, hs2]
    have hnorm : normalize_bom pipe_mapping
        [("Pipe-25mm",
          BomLine.mk ((0 + (1000 : ℝ) / 1000) + (500 : ℝ) / 1000) "m" "Layer")]
        = [("Pipe-25mm",
            BomLine.mk (py_round_to ((0 + (1000 : ℝ) / 1000) + (500 : ℝ) / 1000) 2)
              "m" "Layer")] := by
      simp [normalize_bom, norm_line, pipe_mapping]
    rw [hnorm]
    have hr : py_round_to ((0 + (1000 : ℝ) / 1000) + (500 : ℝ) / 1000) 2 = 1.5 := by
      rw [show ((0 + (1000 : ℝ) / 1000) + (500 : ℝ) / 1000) = 3 / 2 by norm_num]
      unfold py_round_to
      rw [show (3 / 2 : ℝ) * 10 ^ (2 : ℕ) = ((150 : ℤ) : ℝ) by norm_num,
        py_round_intCast]
      norm_num
    rw [hr]

/-- Witness for C1's general part at the concrete PIPE segment. -/
theorem C1_witness_layer_step :
    bom_qty (parse_step pipe_mapping [] pipe_seg1) "Pipe-25mm"
      = bom_qty [] "Pipe-25mm" + entity_length pipe_seg1 / 1000 :=
  (C1_layer_length_aggregation.1 pipe_mapping [] pipe_seg1
    (MappingEntry.mk "Pipe-25mm" "m") rfl (by decide)).1

/-- Claim C4: a block reference whose upper-cased block name is mapped
increments the mapped item's quantity by exactly 1, creating the line
with the entry's unit and source "Block" when the item is new; end to
end, three VALVE block references yield the single BoM line for item
Valve-Gate with quantity 3, unit "pcs", source "Block". -/
theorem C4_block_count_aggregation :
    (∀ (m : MappingTable) (bom : Bom) (n : String) (l : Option String)
        (en : MappingEntry),
        dict_get m.blocks (str_upper n) = some en →
        bom_qty (parse_step m bom ⟨.insert n, l⟩) en.item
            = bom_qty bom en.item + 1 ∧
        (dict_get bom en.item = none →
          dict_get (parse_step m bom ⟨.insert n, l⟩) en.item
            = some (BomLine.mk (0 + 1) en.unit "Block"))) ∧
    parse_dxf (some (.valid valve_mapping)) [valve_ins, valve_ins, valve_ins]
      = .ok [("Valve-Gate", BomLine.mk 3 "pcs" "Block")] := by
  constructor
  · intro m bom n l en hb
    rw [parse_step_block m bom n l en hb]
    exact ⟨bom_qty_bom_add_self bom en.item en.unit "Block" 1,
      fun habs => dict_get_bom_add_absent bom en.item en.unit "Block" 1 habs⟩
  · have hstepA : parse_step valve_mapping [] valve_ins
        = bom_add [] "Valve-Gate" "pcs" "Block" 1 :=
      parse_step_block valve_mapping [] "VALVE" (some "0")
        (MappingEntry.mk "Valve-Gate" "pcs") (by decide)
    have hbA : bom_add [] "Valve-Gate" "pcs" "Block" 1
        = [("Valve-Gate", BomLine.mk (0 + 1) "pcs" "Block")] := rfl
    have hstepB : parse_step valve_mapping
        [("Valve-Gate", BomLine.mk (0 + 1) "pcs" "Block")] valve_ins
        = bom_add [("Valve-Gate", BomLine.mk (0 + 1) "pcs" "Block")]
            "Valve-Gate" "pcs" "Block" 1 :=
      parse_step_block valve_mapping _ "VALVE" (some "0")
        (MappingEntry.mk "Valve-Gate" "pcs") (by decide)
    have hbB : bom_add [("Valve-Gate", BomLine.mk (0 + 1) "pcs" "Block")]
        "Valve-Gate" "pcs" "Block" 1
        = [("Valve-Gate", BomLine.mk ((0 + 1) + 1) "pcs" "Block")] := by
      simp [bom_add]
    have hstepC : parse_step valve_mapping
        [("Valve-Gate", BomLine.mk ((0 + 1) + 1) "pcs" "Block")] valve_ins
        = bom_add [("Valve-Gate", BomLine.mk ((0 + 1) + 1) "pcs" "Block")]
            "Valve-Gate" "pcs" "Block" 1 :=
      parse_step_block valve_mapping _ "VALVE" (some "0")
        (MappingEntry.mk "Valve-Gate" "pcs") (by decide)
    have hbC : bom_add [("Valve-Gate", BomLine.mk ((0 + 1) + 1) "pcs" "Block")]
        "Valve-Gate" "pcs" "Block" 1
        = [("Valve-Gate", BomLine.mk (((0 + 1) + 1) + 1) "pcs" "Block")] := by
      simp [bom_add]
    have hpd : parse_dxf (some (.valid valve_mapping))
        [valve_ins, valve_ins, valve_ins]
        = .ok (normalize_bom valve_mapping
            (parse_step valve_mapping
              (parse_step valve_mapping (parse_step valve_mapping [] valve_ins)
                valve_ins) valve_ins)) :=
      parse_dxf_valid valve_mapping [valve_ins, valve_ins, valve_ins]
    rw [hpd, hstepA, hbA, hstepB, hbB, hstepC, hbC]
    have hnorm : normalize_bom valve_mapping
        [("Valve-Gate", BomLine.mk ((((0 : ℝ) + 1) + 1) + 1) "pcs" "Block")]
        = [("Valve-Gate",
            BomLine.mk ((py_int ((((0 : ℝ) + 1) + 1) + 1) : ℝ)) "pcs" "Block")] := by
      simp [normalize_bom, norm_line]
    rw [hnorm]
    have hint : ((py_int ((((0 : ℝ) + 1) + 1) + 1) : ℤ) : ℝ) = 3 := by
      rw [show ((((0 : ℝ) + 1) + 1) + 1) = 3 by norm_num]
      unfold py_int
      rw [if_pos (by norm_num : (0 : ℝ) ≤ 3)]
      norm_num
    rw [hint]

/-- Witness for C4's general part at the concrete VALVE block. -/
theorem C4_witness_block_step :
    bom_qty (parse_step valve_mapping [] valve_ins) "Valve-Gate"
      = bom_qty [] "Valve-Gate" + 1 :=
  (C4_block_count_aggregation.1 valve_mapping [] "VALVE" (some "0")
    (MappingEntry.mk "Valve-Gate" "pcs") (by decide)).1

/-- Claim C8: aggregation never fails: with any valid mapping, parse_dxf
always returns a BoM, an empty drawing yields the empty BoM, and an
entity whose layer or block name is unmapped (or that is of another kind)
leaves the running BoM unchanged. -/
theorem C8_unmapped_skipped_no_error :
    (∀ (m : MappingTable) (es : List Entity),
        ∃ b : Bom, parse_dxf (some (.valid m)) es = .ok b) ∧
    (∀ m : MappingTable, parse_dxf (some (.valid m)) [] = .ok []) ∧
    (∀ (m : MappingTable) (bom : Bom) (e : Entity),
        (is_curve e = true →
          dict_get m.layers (str_upper (e.layer.getD "")) = none) →
        (∀ n : String, e.data = .insert n →
          dict_get m.blocks (str_upper n) = none) →
        parse_step m bom e = bom) := by
  refine ⟨fun m es => ⟨_, parse_dxf_valid m es⟩,
    fun m => (parse_dxf_valid m []).trans rfl, ?_⟩
  intro m bom e h1 h2
  exact parse_step_skip m bom e h1 h2

/-- Witness for C8's skip property at an unmapped block reference. -/
theorem C8_witness_skip :
    parse_step empty_mapping [] skip_ins = [] :=
  C8_unmapped_skipped_no_error.2.2 empty_mapping [] skip_ins
    (fun _ => rfl) (fun _ _ => rfl)

/-- Claim C9: contributions to the same item identifier accumulate into
one line whose unit and source come from the first contributor and are
never overwritten: both the aggregation step and the normalization
post-pass preserve an existing line's unit and source, and end to end a
layer-derived length on layer A followed by a block-derived count on
block B, both mapped to item X, yield the single line with quantity 2
and the first contributor's unit "m" and source "Layer". -/
theorem C9_same_item_accumulates :
    (∀ (m : MappingTable) (bom : Bom) (e : Entity) (k : String) (v : BomLine),
        dict_get bom k = some v →
        ∃ q : ℝ, dict_get (parse_step m bom e) k
            = some (BomLine.mk q v.unit v.source)) ∧
    (∀ (m : MappingTable) (bom : Bom) (k : String) (v : BomLine),
        dict_get bom k = some v →
        ∃ q : ℝ, dict_get (normalize_bom m bom) k
            = some (BomLine.mk q v.unit v.source)) ∧
    parse_dxf (some (.valid mixed_mapping)) [mixed_line, mixed_ins]
      = .ok [("X", BomLine.mk 2 "m" "Layer")] := by
  refine ⟨?_, ?_, ?_⟩
  · intro m bom e k v h
    obtain ⟨d, l⟩ := e
    cases d with
    | line s e_ =>
        cases hl : dict_get m.layers (str_upper (l.getD "")) with
        | none =>
            refine ⟨v.quantity, ?_⟩
            rw [parse_step_skip m bom ⟨.line s e_, l⟩ (fun _ => hl)
              (fun n2 hn => nomatch hn), h]
        | some en =>
            rw [parse_step_curve m bom ⟨.line s e_, l⟩ en rfl hl]
            exact bom_add_preserves bom en.item en.unit "Layer" k _ v h
    | lwpolyline pts =>
        cases hl : dict_get m.layers (str_upper (l.getD "")) with
        | none =>
            refine ⟨v.quantity, ?_⟩
            rw [parse_step_skip m bom ⟨.lwpolyline pts, l⟩ (fun _ => hl)
              (fun n2 hn => nomatch hn), h]
        | some en =>
            rw [parse_step_curve m bom ⟨.lwpolyline pts, l⟩ en rfl hl]
            exact bom_add_preserves bom en.item en.unit "Layer" k _ v h
    | polyline pts =>
        cases hl : dict_get m.layers (str_upper (l.getD "")) with
        | none =>
            refine ⟨v.quantity, ?_⟩
            rw [parse_step_skip m bom ⟨.polyline pts, l⟩ (fun _ => hl)
              (fun n2 hn => nomatch hn), h]
        | some en =>
            rw [parse_step_curve m bom ⟨.polyline pts, l⟩ en rfl hl]
            exact bom_add_preserves bom en.item en.unit "Layer" k _ v h
    | insert n =>
        cases hb : dict_get m.blocks (str_upper n) with
        | none =>
            refine ⟨v.quantity, ?_⟩
            rw [parse_step_skip m bom ⟨.insert n, l⟩
              (fun hc => by simp [is_curve] at hc)
              (fun n2 hn => by cases hn; exact hb), h]
        | some en =>
            rw [parse_step_block m bom n l en hb]
            exact bom_add_preserves bom en.item en.unit "Block" k 1 v h
    | other t =>
        refine ⟨v.quantity, ?_⟩
        rw [show parse_step m bom ⟨.other t, l⟩ = bom from rfl, h]
  · intro m bom k v h
    rw [dict_get_normalize m bom k, h]
    obtain ⟨q, hq⟩ := norm_line_fields m v
    exact ⟨q, by simp [hq]⟩
  · have hsl : entity_length mixed_line = 1000 := by
      have h0 : entity_length mixed_line = math_dist (0, 0) (1000, 0) := rfl
      rw [h0]
      exact math_dist_eval 0 0 1000 0 1000 (by norm_num) (by norm_num)
    have hstep1 : parse_step mixed_mapping [] mixed_line
        = bom_add [] "X" "m" "Layer" (entity_length mixed_line / 1000) :=
      parse_step_curve mixed_mapping [] mixed_line (MappingEntry.mk "X" "m")
        rfl (by decide)
    have hb1 : bom_add [] "X" "m" "Layer" (entity_length mixed_line / 1000)
        = [("X", BomLine.mk (0 + entity_length mixed_line / 1000) "m" "Layer")] :=
      rfl
    have hstep2 : parse_step mixed_mapping
        [("X", BomLine.mk (0 + entity_length mixed_line / 1000) "m" "Layer")]
        mixed_ins
        = bom_add
            [("X", BomLine.mk (0 + entity_length mixed_line / 1000) "m" "Layer")]
            "X" "pcs" "Block" 1 :=
      parse_step_block mixed_mapping _ "B" (some "0")
        (MappingEntry.mk "X" "pcs") (by decide)
    have hb2 : bom_add
        [("X", BomLine.mk (0 + entity_length mixed_line / 1000) "m" "Layer")]
        "X" "pcs" "Block" 1
        = [("X", BomLine.mk ((0 + entity_length mixed_line / 1000) + 1)
            "m" "Layer")] := by
      simp [bom_add]
    have hpd : parse_dxf (some (.valid mixed_mapping)) [mixed_line, mixed_ins]
        = .ok (normalize_bom mixed_mapping
            (parse_step mixed_mapping (parse_step mixed_mapping [] mixed_line)
              mixed_ins)) :=
      parse_dxf_valid mixed_mapping [mixed_line, mixed_ins]
    rw [hpd, hstep1, hb1, hstep2, hb2, hsl]
    have hnorm : normalize_bom mixed_mapping
        [("X", BomLine.mk ((0 + (1000 : ℝ) / 1000) + 1) "m" "Layer")]
        = [("X", BomLine.mk (py_round_to ((0 + (1000 : ℝ) / 1000) + 1) 2)
            "m" "Layer")] := by
      simp [normalize_bom, norm_line, mixed_mapping]
    rw [hnorm]
    have hr : py_round_to ((0 + (1000 : ℝ) / 1000) + 1) 2 = 2 := by
      rw [show ((0 + (1000 : ℝ) / 1000) + 1) = 2 by norm_num]
      unfold py_round_to
      rw [show (2 : ℝ) * 10 ^ (2 : ℕ) = ((200 : ℤ) : ℝ) by norm_num,
        py_round_intCast]
      norm_num
    rw [hr]

/-- Witness for C9's preservation at a concrete one-line BoM. -/
theorem C9_witness_preserve :
    ∃ q : ℝ, dict_get (parse_step empty_mapping
        [("X", BomLine.mk 1 "m" "Layer")] survey_entB) "X"
      = some (BomLine.mk q "m" "Layer") :=
  C9_same_item_accumulates.1 empty_mapping [("X", BomLine.mk 1 "m" "Layer")]
    survey_entB "X" (BomLine.mk 1 "m" "Layer") rfl

/-- Claim C10: the post-pass rounding branch is selected solely by string
equality of the line's unit with "m": any other unit string — the count
unit "pcs" or a custom string — has its quantity truncated toward zero
with int(); end to end, a layer entry configured with the non-length unit
"mm" has its accumulated length sum 1.5 truncated to the integer 1. -/
theorem C10_rounding_branch_by_unit_string :
    (∀ (m : MappingTable) (v : BomLine), ¬ v.unit = "m" →
        norm_line m v = BomLine.mk ((py_int v.quantity : ℝ)) v.unit v.source) ∧
    (∀ (m : MappingTable) (v : BomLine), v.unit = "m" →
        norm_line m v
          = BomLine.mk
              (py_round_to v.quantity (m.defaults.length_precision.getD 2))
              v.unit v.source) ∧
    parse_dxf (some (.valid custom_mapping)) [custom_line]
      = .ok [("Y", BomLine.mk 1 "mm" "Layer")] := by
  refine ⟨?_, ?_, ?_⟩
  · intro m v h
    unfold norm_line
    rw [if_neg h]
  · intro m v h
    unfold norm_line
    rw [if_pos h]
  · have hsl : entity_length custom_line = 1500 := by
      have h0 : entity_length custom_line = math_dist (0, 0) (1500, 0) := rfl
      rw [h0]
      exact math_dist_eval 0 0 1500 0 1500 (by norm_num) (by norm_num)
    have hstep1 : parse_step custom_mapping [] custom_line
        = bom_add [] "Y" "mm" "Layer" (entity_length custom_line / 1000) :=
      parse_step_curve custom_mapping [] custom_line (MappingEntry.mk "Y" "mm")
        rfl (by decide)
    have hb1 : bom_add [] "Y" "mm" "Layer" (entity_length custom_line / 1000)
        = [("Y", BomLine.mk (0 + entity_length custom_line / 1000) "mm" "Layer")] :=
      rfl
    have hpd : parse_dxf (some (.valid custom_mapping)) [custom_line]
        = .ok (normalize_bom custom_mapping
            (parse_step custom_mapping [] custom_line)) :=
      parse_dxf_valid custom_mapping [custom_line]
    rw [hpd, hstep1, hb1, hsl]
    have hnorm : normalize_bom custom_mapping
        [("Y", BomLine.mk (0 + (1500 : ℝ) / 1000) "mm" "Layer")]
        = [("Y", BomLine.mk ((py_int (0 + (1500 : ℝ) / 1000) : ℝ)) "mm" "Layer")] := by
      simp [normalize_bom, norm_line]
    rw [hnorm]
    have hint : ((py_int (0 + (1500 : ℝ) / 1000) : ℤ) : ℝ) = 1 := by
      rw [show (0 + (1500 : ℝ) / 1000) = 3 / 2 by norm_num]
      unfold py_int
      rw [if_pos (by norm_num : (0 : ℝ) ≤ 3 / 2)]
      have hf : ⌊(3 / 2 : ℝ)⌋ = 1 := by norm_num [Int.floor_eq_iff]
      rw [hf]
      norm_num
    rw [hint]

/-- Witness for C10's truncation branch at a concrete non-length unit. -/
theorem C10_witness_trunc :
    norm_line empty_mapping (BomLine.mk (3 / 2) "pcs" "Block")
      = BomLine.mk ((py_int ((3 : ℝ) / 2) : ℝ)) "pcs" "Block" :=
  C10_rounding_branch_by_unit_string.1 empty_mapping
    (BomLine.mk (3 / 2) "pcs" "Block") (by decide)

end BOMGenerator
